import Mathlib

set_option maxHeartbeats 1000000

/-!
Shallow embedding of the `consumer-shared` reliability layer.

The embedding covers:
* the DLQ retry / dead-letter handler (`src/services/dlq.service.ts`,
  class `DlqHandler`),
* the RabbitMQ connection manager (`src/config/rabbitmq.ts`,
  class `ConnectionManager`),
* the consumer error path (`BaseConsumer.handleError`).

Message headers are modelled as association lists whose update
operation (`hset`) mirrors the JavaScript object-spread-with-override
`{...headers, key: value}`: an existing key keeps its position and gets
the new value, a missing key is appended at the end.  Side effects on
the AMQP channel are reified as a list of `ChannelOp` values, in the
order the code issues them.  Wall-clock time (`new Date().toISOString()`),
`JSON.parse` and `Buffer.toString` are inputs of the model (`Env`).
-/

/-- Header values carried in a message's AMQP header map. -/
inductive HVal where
  | str (s : String)
  | int (n : Int)
  | bool (b : Bool)
deriving DecidableEq, Repr

/-- An AMQP header map, in insertion order (JS object key order). -/
abbrev Headers := List (String × HVal)

/-- Header lookup (`headers[k]`). -/
def hget (hs : Headers) (k : String) : Option HVal :=
  (hs.find? (fun p => p.1 == k)).map (fun p => p.2)

/-- Object-spread override `{...hs, k: v}`: replace the value at an
existing key in place, or append the new key at the end. -/
def hset (hs : Headers) (k : String) (v : HVal) : Headers :=
  if hs.any (fun p => p.1 == k) then
    hs.map (fun p => if p.1 == k then (k, v) else p)
  else
    hs ++ [(k, v)]

/-- Parsed JSON values, the possible results of `JSON.parse`. -/
inductive Json where
  | null
  | bool (b : Bool)
  | num (n : Int)
  | str (s : String)
  | arr (elems : List Json)
  | obj (fields : List (String × Json))

/-- The `originalMessage` field of an alert: the parsed payload when
`JSON.parse` succeeded, otherwise the raw payload decoded as text. -/
inductive OrigMsg where
  | json (j : Json)
  | text (s : String)

/-- The alert record published to the notifications exchange. -/
structure Alert where
  service : String
  queue : String
  error : String
  retryCount : Nat
  originalMessage : OrigMsg
  timestamp : String

/-- Operations issued on the AMQP channel, in program order.
`publish` carries the headers written in the publish options;
`publishAlert` is the alert publish (its options carry no headers). -/
inductive ChannelOp where
  | publish (exchange routingKey : String) (content : List Nat) (headers : Headers)
  | publishAlert (exchange routingKey : String) (alert : Alert)
  | ack
  | nack (allUpTo requeue : Bool)

/-- An incoming AMQP delivery: payload bytes, routing key
(`message.fields.routingKey`) and headers
(`message.properties.headers ?? {}`). -/
structure ConsumeMessage where
  content : List Nat
  routingKey : String
  headers : Headers
deriving DecidableEq, Repr

/-- `DlqHandler` configuration after constructor defaulting
(`maxRetries = options.maxRetries ?? DEFAULT_MAX_RETRIES`). -/
structure DlqConfig where
  exchange : String
  queue : String
  serviceName : String
  maxRetries : Nat
deriving DecidableEq, Repr

/-- Runtime inputs of the model: the current wall-clock ISO timestamp,
`JSON.parse` (`none` when it throws) and `Buffer.toString`. -/
structure Env where
  now : String
  parseJson : String → Option Json
  decodeText : List Nat → String

def DEFAULT_MAX_RETRIES : Nat := 20

def MAX_DELAY_MS : Nat := 16 * 60 * 60 * 1000

def NOTIFICATIONS_EXCHANGE : String := "notifications"

namespace DlqHandler

/-- `DlqHandler.calculateDelay`: 0 on the first failure, else
`min(1000 * 2^(retryCount - 1), MAX_DELAY_MS)`. -/
def calculateDelay (retryCount : Nat) : Nat :=
  if retryCount = 0 then 0
  else min (1000 * 2 ^ (retryCount - 1)) MAX_DELAY_MS

/-- `(headers["x-retry-count"] as number | undefined) ?? 0`.  The code
types the header as a number; non-numeric values are outside the model
and read as the default 0. -/
def getRetryCount (hs : Headers) : Nat :=
  match hget hs "x-retry-count" with
  | some (HVal.int n) => n.toNat
  | _ => 0

/-- `(headers["x-first-failure-timestamp"] as string | undefined) ??
new Date().toISOString()`. -/
def getFirstFailure (env : Env) (hs : Headers) : HVal :=
  (hget hs "x-first-failure-timestamp").getD (HVal.str env.now)

/-- `DlqHandler.routeToDlq`: publish to `{exchange}.dlq` under the queue
name as routing key, with the original headers overridden by
`x-retry-count` (unchanged incoming count), `x-first-failure-timestamp`
and `x-last-error`. -/
def routeToDlq (cfg : DlqConfig) (msg : ConsumeMessage) (errMsg : String)
    (retryCount : Nat) (firstFailure : HVal) : ChannelOp :=
  ChannelOp.publish (cfg.exchange ++ ".dlq") cfg.queue msg.content
    (hset (hset (hset msg.headers
      "x-retry-count" (HVal.int retryCount))
      "x-first-failure-timestamp" firstFailure)
      "x-last-error" (HVal.str errMsg))

/-- The alert record built by `DlqHandler.publishAlert`: the payload is
decoded as text and parsed as JSON; on parse failure the raw text is
used for `originalMessage`. -/
def buildAlert (cfg : DlqConfig) (env : Env) (msg : ConsumeMessage)
    (errMsg : String) (retryCount : Nat) : Alert :=
  { service := cfg.serviceName
    queue := cfg.queue
    error := errMsg
    retryCount := retryCount
    originalMessage :=
      match env.parseJson (env.decodeText msg.content) with
      | some j => OrigMsg.json j
      | none => OrigMsg.text (env.decodeText msg.content)
    timestamp := env.now }

/-- `DlqHandler.publishAlert`: publish the alert to the notifications
exchange under `notifications.dlq.{serviceName}`. -/
def publishAlert (cfg : DlqConfig) (env : Env) (msg : ConsumeMessage)
    (errMsg : String) (retryCount : Nat) : ChannelOp :=
  ChannelOp.publishAlert NOTIFICATIONS_EXCHANGE
    ("notifications.dlq." ++ cfg.serviceName)
    (buildAlert cfg env msg errMsg retryCount)

/-- `DlqHandler.handleRetryableError`: at `retryCount >= maxRetries`
route to the DLQ, publish the alert and ack; otherwise republish to the
delay exchange with `x-delay`, incremented `x-retry-count`, preserved
`x-first-failure-timestamp` and fresh `x-last-error`, then ack. -/
def handleRetryableError (cfg : DlqConfig) (env : Env)
    (msg : ConsumeMessage) (errMsg : String) : List ChannelOp :=
  let retryCount := getRetryCount msg.headers
  let firstFailure := getFirstFailure env msg.headers
  if cfg.maxRetries ≤ retryCount then
    [routeToDlq cfg msg errMsg retryCount firstFailure,
     publishAlert cfg env msg errMsg retryCount,
     ChannelOp.ack]
  else
    [ChannelOp.publish (cfg.exchange ++ ".delay") msg.routingKey msg.content
      (hset (hset (hset (hset msg.headers
        "x-delay" (HVal.int (calculateDelay retryCount)))
        "x-retry-count" (HVal.int (retryCount + 1)))
        "x-first-failure-timestamp" firstFailure)
        "x-last-error" (HVal.str errMsg)),
     ChannelOp.ack]

/-- `DlqHandler.handleNonRetryableError`: always route to the DLQ with
the incoming retry count unchanged, publish the alert and ack. -/
def handleNonRetryableError (cfg : DlqConfig) (env : Env)
    (msg : ConsumeMessage) (errMsg : String) : List ChannelOp :=
  [routeToDlq cfg msg errMsg (getRetryCount msg.headers)
     (getFirstFailure env msg.headers),
   publishAlert cfg env msg errMsg (getRetryCount msg.headers),
   ChannelOp.ack]

end DlqHandler

/-- Does the operation list publish to the dead-letter exchange
`{exchange}.dlq`? -/
def deadLetters (cfg : DlqConfig) (ops : List ChannelOp) : Bool :=
  ops.any fun op =>
    match op with
    | ChannelOp.publish ex _ _ _ => ex == cfg.exchange ++ ".dlq"
    | _ => false

/-- Does the operation list republish to the delay exchange
`{exchange}.delay`? -/
def retried (cfg : DlqConfig) (ops : List ChannelOp) : Bool :=
  ops.any fun op =>
    match op with
    | ChannelOp.publish ex _ _ _ => ex == cfg.exchange ++ ".delay"
    | _ => false

/-- Does the operation list publish an alert? -/
def alertPublished (ops : List ChannelOp) : Bool :=
  ops.any fun op =>
    match op with
    | ChannelOp.publishAlert _ _ _ => true
    | _ => false

/-- Does the operation list acknowledge the message? -/
def acked (ops : List ChannelOp) : Bool :=
  ops.any fun op =>
    match op with
    | ChannelOp.ack => true
    | _ => false

/-- Headers written on the first `publish` operation of the list. -/
def firstPublishHeaders (ops : List ChannelOp) : Option Headers :=
  match ops.find? (fun op =>
    match op with
    | ChannelOp.publish _ _ _ _ => true
    | _ => false) with
  | some (ChannelOp.publish _ _ _ hs) => some hs
  | _ => none


/-- Connection lifecycle states of the `ConnectionManager`. -/
inductive ConnState where
  | disconnected
  | connecting
  | connected
deriving DecidableEq, Repr

/-- The mutable fields of a `ConnectionManager`: the connection and
channel references (identified by opaque handles) and the current
state. -/
structure ManagerState where
  connection : Option Nat
  channel : Option Nat
  currentState : ConnState
deriving DecidableEq, Repr

/-- `ConnectionManager` configuration after constructor defaulting
(`reconnectAttempts ?? 5`, `reconnectDelayMs ?? 1000`). -/
structure ConnCfg where
  reconnectAttempts : Nat
  reconnectDelayMs : Nat
deriving DecidableEq, Repr

def DEFAULT_RECONNECT_ATTEMPTS : Nat := 5

def DEFAULT_RECONNECT_DELAY_MS : Nat := 1000

/-- Outcome of one iteration of the `connect()` loop: either
`amqplib.connect` plus `createChannel` succeed (yielding handles), or
the attempt throws with an error message. -/
inductive ConnAttempt where
  | success (conn ch : Nat)
  | failure (err : String)

/-- The `ConnectionError` value thrown by the manager. -/
structure ConnectionError where
  message : String
  code : String
  context : Option (List (String × String))
deriving DecidableEq, Repr

/-- What `connect()` did: how many attempts it made and the backoff
sleeps it performed between attempts, in order. -/
structure ConnectTrace where
  attemptsMade : Nat
  sleeps : List Nat
deriving DecidableEq, Repr

namespace ConnectionManager

/-- `ConnectionManager.calculateBackoff`:
`reconnectDelayMs * 2 ** attempt`, no cap. -/
def calculateBackoff (cfg : ConnCfg) (attempt : Nat) : Nat :=
  cfg.reconnectDelayMs * 2 ^ attempt

/-- The error thrown when every attempt failed; `err` is the message of
the error caught on the last attempt. -/
def connFailedError (cfg : ConnCfg) (err : String) : ConnectionError :=
  { message := "Failed to connect after " ++ toString (cfg.reconnectAttempts + 1)
      ++ " attempts"
    code := "ECONNFAILED"
    context := some [("lastError", err)] }

/-- The retry loop of `connect()`.  `attempt` is the 0-based loop index;
`remaining` counts the iterations still allowed after this one, so the
loop entered at `(0, reconnectAttempts)` makes at most
`reconnectAttempts + 1` tries and `remaining = 0` is exactly the
`attempt === reconnectAttempts` last-attempt check. -/
def connectLoop (cfg : ConnCfg) (attempts : Nat → ConnAttempt) :
    Nat → Nat → ConnectTrace × Except ConnectionError (Nat × Nat)
  | attempt, remaining =>
    match attempts attempt with
    | ConnAttempt.success conn ch =>
        ({ attemptsMade := 1, sleeps := [] }, Except.ok (conn, ch))
    | ConnAttempt.failure err =>
        match remaining with
        | 0 => ({ attemptsMade := 1, sleeps := [] },
                Except.error (connFailedError cfg err))
        | remaining' + 1 =>
            let rest := connectLoop cfg attempts (attempt + 1) remaining'
            ({ attemptsMade := rest.1.attemptsMade + 1,
               sleeps := calculateBackoff cfg attempt :: rest.1.sleeps },
             rest.2)

/-- `ConnectionManager.connect()`: sets the state to `connecting`, runs
the attempt loop; on success stores the new connection and channel and
becomes `connected`, on exhaustion becomes `disconnected` and throws. -/
def connect (cfg : ConnCfg) (st : ManagerState) (attempts : Nat → ConnAttempt) :
    ManagerState × ConnectTrace × Except ConnectionError Unit :=
  let res := connectLoop cfg attempts 0 cfg.reconnectAttempts
  match res.2 with
  | Except.ok (conn, ch) =>
      ({ connection := some conn, channel := some ch,
         currentState := ConnState.connected }, res.1, Except.ok ())
  | Except.error e =>
      ({ st with currentState := ConnState.disconnected }, res.1, Except.error e)

/-- The error thrown by `getChannel()` when no channel reference exists. -/
def chanUnavailableError : ConnectionError :=
  { message := "Channel not available — call connect() first"
    code := "ENOCHANNEL"
    context := none }

/-- `ConnectionManager.getChannel()`: the stored channel, or a thrown
`ConnectionError` when the reference is null. -/
def getChannel (st : ManagerState) : Except ConnectionError Nat :=
  match st.channel with
  | none => Except.error chanUnavailableError
  | some ch => Except.ok ch

/-- The connection-closing half of `close()` (the second `if`): runs
only when closing the channel did not throw. -/
def closeConnectionStep (st : ManagerState) (connectionCloseErr : Option String) :
    ManagerState × Except String Unit :=
  match st.connection with
  | some _ =>
      match connectionCloseErr with
      | some e => ({ st with currentState := ConnState.disconnected },
                   Except.error e)
      | none =>
          ({ st with
              connection := none
              currentState := ConnState.disconnected }, Except.ok ())
  | none => ({ st with currentState := ConnState.disconnected }, Except.ok ())

/-- `ConnectionManager.close()`: close the channel (clearing the
reference only if closing did not throw), then the connection; the
`finally` block sets the state to `disconnected` on every path.
`channelCloseErr` / `connectionCloseErr` are the errors thrown by the
underlying `close()` calls, `none` meaning success. -/
def close (st : ManagerState) (channelCloseErr connectionCloseErr : Option String) :
    ManagerState × Except String Unit :=
  match st.channel with
  | some _ =>
      match channelCloseErr with
      | some e => ({ st with currentState := ConnState.disconnected },
                   Except.error e)
      | none => closeConnectionStep { st with channel := none } connectionCloseErr
  | none => closeConnectionStep st connectionCloseErr

/-- The `"close"` listener installed by `setupConnectionHandlers`:
returns the state after the handler and whether a reconnection was
triggered.  If the state is already `disconnected` (an explicit
`close()`) nothing happens; otherwise the references are cleared, the
state becomes `disconnected` and `reconnect()` is fired. -/
def onConnectionClose (st : ManagerState) : ManagerState × Bool :=
  if st.currentState = ConnState.disconnected then (st, false)
  else ({ connection := none, channel := none,
          currentState := ConnState.disconnected }, true)

/-- Notifications emitted by `reconnect()`. -/
inductive Emitted where
  | reconnected
  | emittedError (e : ConnectionError)
deriving DecidableEq, Repr

/-- `ConnectionManager.reconnect()`: run `connect()`; emit
`"reconnected"` on success and `"error"` with the thrown error on
failure. -/
def reconnect (cfg : ConnCfg) (st : ManagerState) (attempts : Nat → ConnAttempt) :
    ManagerState × ConnectTrace × Emitted :=
  let res := connect cfg st attempts
  match res.2.2 with
  | Except.ok _ => (res.1, res.2.1, Emitted.reconnected)
  | Except.error e => (res.1, res.2.1, Emitted.emittedError e)

end ConnectionManager

namespace BaseConsumer

/-- `BaseConsumer.handleError`: delegate to the DLQ handler —
`handleNonRetryableError` when the error is a `NonRetryableError`,
`handleRetryableError` otherwise.  If the delegated call throws, the
exception is caught and the message is nacked with
`nack(msg, false, false)`; the result lists the operations the consumer
itself issues afterwards (empty when the DLQ handler succeeded). -/
def handleError (errNonRetryable : Bool)
    (retryResult nonRetryResult : Except String Unit) : List ChannelOp :=
  match (if errNonRetryable then nonRetryResult else retryResult) with
  | Except.ok _ => []
  | Except.error _ => [ChannelOp.nack false false]

end BaseConsumer

/-! Concrete fixtures used by witnesses and counterexamples. -/

/-- A `DlqHandler` configuration with the default `maxRetries = 20`. -/
def cfgEx : DlqConfig :=
  { exchange := "orders", queue := "orders.created",
    serviceName := "orders", maxRetries := DEFAULT_MAX_RETRIES }

/-- An environment whose payload does not parse as JSON. -/
def envEx : Env :=
  { now := "2024-01-01T00:00:00.000Z"
    parseJson := fun _ => none
    decodeText := fun _ => "raw-text" }

/-- An environment whose payload parses as the JSON string "parsed". -/
def envExJson : Env :=
  { now := "2024-01-01T00:00:00.000Z"
    parseJson := fun _ => some (Json.str "parsed")
    decodeText := fun _ => "raw-text" }

/-- A message arriving with `x-retry-count = 20` (equal to the default
`maxRetries`). -/
def msgEx20 : ConsumeMessage :=
  { content := [123], routingKey := "orders.created",
    headers := [("x-retry-count", HVal.int 20)] }

/-- A message arriving with `x-retry-count = 19` (`maxRetries - 1`). -/
def msgEx19 : ConsumeMessage :=
  { content := [123], routingKey := "orders.created",
    headers := [("x-retry-count", HVal.int 19)] }

/-- A message arriving with `x-retry-count = 3`, a preserved
`x-first-failure-timestamp` and an unrelated `trace-id` header. -/
def msgEx3 : ConsumeMessage :=
  { content := [1, 2, 3], routingKey := "orders.created",
    headers := [("x-retry-count", HVal.int 3),
                ("x-first-failure-timestamp", HVal.str "2023-12-31T23:00:00.000Z"),
                ("trace-id", HVal.str "t-1")] }

/-- A connected manager holding connection handle 0 and channel handle 1. -/
def stConnectedEx : ManagerState :=
  { connection := some 0, channel := some 1,
    currentState := ConnState.connected }

/-- A disconnected manager holding no references. -/
def stDisconnectedEx : ManagerState :=
  { connection := none, channel := none,
    currentState := ConnState.disconnected }

/-- A connection configuration with 2 retries and a 100 ms base delay. -/
def cfgConnEx : ConnCfg := { reconnectAttempts := 2, reconnectDelayMs := 100 }

/-- Attempt oracle: every connection attempt fails. -/
def attemptsFailEx : Nat → ConnAttempt := fun _ => ConnAttempt.failure "ECONNREFUSED"

/-- Attempt oracle: the first attempt fails, the second succeeds. -/
def attemptsOkEx : Nat → ConnAttempt := fun i =>
  if i = 0 then ConnAttempt.failure "ECONNREFUSED" else ConnAttempt.success 7 8
theorem hget_cons_pos (p : String × HVal) (t : Headers) (k : String)
    (h : (p.1 == k) = true) : hget (p :: t) k = some p.2 := by
  simp only [hget, List.find?_cons, h]
  rfl

theorem hget_cons_neg (p : String × HVal) (t : Headers) (k : String)
    (h : (p.1 == k) = false) : hget (p :: t) k = hget t k := by
  simp only [hget, List.find?_cons, h]

theorem hget_map_set_self (hs : Headers) (k : String) (v : HVal)
    (h : hs.any (fun p => p.1 == k) = true) :
    hget (hs.map (fun p => if p.1 == k then (k, v) else p)) k = some v := by
  induction hs with
  | nil => simp at h
  | cons p t ih =>
      by_cases hp : (p.1 == k) = true
      · have hmap : (p :: t).map (fun q => if q.1 == k then (k, v) else q)
            = (k, v) :: t.map (fun q => if q.1 == k then (k, v) else q) := by
          rw [List.map_cons, if_pos hp]
        rw [hmap]
        have hfind := hget_cons_pos (k, v)
          (t.map (fun q => if q.1 == k then (k, v) else q)) k (by simp)
        simpa using hfind
      · have hmap : (p :: t).map (fun q => if q.1 == k then (k, v) else q)
            = p :: t.map (fun q => if q.1 == k then (k, v) else q) := by
          rw [List.map_cons, if_neg hp]
        rw [hmap, hget_cons_neg p _ k (Bool.eq_false_iff.mpr hp)]
        have ht : (t.any fun q => q.1 == k) = true := by
          simpa [hp] using h
        exact ih ht

theorem hget_append_set (hs : Headers) (k : String) (v : HVal)
    (h : hs.any (fun p => p.1 == k) = false) :
    hget (hs ++ [(k, v)]) k = some v := by
  induction hs with
  | nil =>
      have := hget_cons_pos (k, v) [] k (by simp)
      simpa using this
  | cons p t ih =>
      simp only [List.any_cons, Bool.or_eq_false_iff] at h
      rw [List.cons_append, hget_cons_neg p _ k h.1]
      exact ih h.2

theorem hget_hset_self (hs : Headers) (k : String) (v : HVal) :
    hget (hset hs k v) k = some v := by
  unfold hset
  by_cases h : hs.any (fun p => p.1 == k) = true
  · rw [if_pos h]
    exact hget_map_set_self hs k v h
  · rw [if_neg h]
    exact hget_append_set hs k v (Bool.eq_false_iff.mpr h)

theorem hget_map_set_ne (hs : Headers) (k k2 : String) (v : HVal)
    (h : k2 ≠ k) :
    hget (hs.map (fun p => if p.1 == k then (k, v) else p)) k2 = hget hs k2 := by
  induction hs with
  | nil => simp [hget]
  | cons p t ih =>
      by_cases hp : (p.1 == k) = true
      · have hpk : p.1 = k := by simpa using hp
        have hk2 : (k == k2) = false := by
          simpa using (Ne.symm h)
        have hpk2 : (p.1 == k2) = false := by
          rw [hpk]; exact hk2
        have hmap : (p :: t).map (fun q => if q.1 == k then (k, v) else q)
            = (k, v) :: t.map (fun q => if q.1 == k then (k, v) else q) := by
          rw [List.map_cons, if_pos hp]
        rw [hmap, hget_cons_neg (k, v) _ k2 hk2, hget_cons_neg p t k2 hpk2]
        exact ih
      · have hmap : (p :: t).map (fun q => if q.1 == k then (k, v) else q)
            = p :: t.map (fun q => if q.1 == k then (k, v) else q) := by
          rw [List.map_cons, if_neg hp]
        rw [hmap]
        by_cases hq : (p.1 == k2) = true
        · rw [hget_cons_pos p _ k2 hq, hget_cons_pos p t k2 hq]
        · rw [hget_cons_neg p _ k2 (Bool.eq_false_iff.mpr hq),
            hget_cons_neg p t k2 (Bool.eq_false_iff.mpr hq)]
          exact ih

theorem hget_append_ne (hs : Headers) (k k2 : String) (v : HVal)
    (h : k2 ≠ k) :
    hget (hs ++ [(k, v)]) k2 = hget hs k2 := by
  induction hs with
  | nil =>
      have hk2 : (k == k2) = false := by simpa using (Ne.symm h)
      have := hget_cons_neg (k, v) [] k2 hk2
      simpa using this
  | cons p t ih =>
      by_cases hq : (p.1 == k2) = true
      · rw [List.cons_append, hget_cons_pos p _ k2 hq, hget_cons_pos p t k2 hq]
      · rw [List.cons_append, hget_cons_neg p _ k2 (Bool.eq_false_iff.mpr hq),
          hget_cons_neg p t k2 (Bool.eq_false_iff.mpr hq)]
        exact ih

theorem hget_hset_ne (hs : Headers) (k k2 : String) (v : HVal)
    (h : k2 ≠ k) :
    hget (hset hs k v) k2 = hget hs k2 := by
  unfold hset
  by_cases hb : hs.any (fun p => p.1 == k) = true
  · rw [if_pos hb]
    exact hget_map_set_ne hs k k2 v h
  · rw [if_neg hb]
    exact hget_append_ne hs k k2 v h


theorem string_append_ne_of_length_ne (s a b : String)
    (h : a.length ≠ b.length) : (s ++ a) ≠ (s ++ b) := by
  intro he
  have hl : (s ++ a).length = (s ++ b).length := by rw [he]
  rw [String.length_append, String.length_append] at hl
  omega

theorem dlq_ne_delay (s : String) : (s ++ ".dlq") ≠ (s ++ ".delay") :=
  string_append_ne_of_length_ne s ".dlq" ".delay" (by decide)

theorem delay_ne_dlq (s : String) : (s ++ ".delay") ≠ (s ++ ".dlq") :=
  string_append_ne_of_length_ne s ".delay" ".dlq" (by decide)

theorem handleRetryableError_eq_exhausted (cfg : DlqConfig) (env : Env)
    (msg : ConsumeMessage) (errMsg : String)
    (h : cfg.maxRetries ≤ DlqHandler.getRetryCount msg.headers) :
    DlqHandler.handleRetryableError cfg env msg errMsg =
      [DlqHandler.routeToDlq cfg msg errMsg (DlqHandler.getRetryCount msg.headers)
         (DlqHandler.getFirstFailure env msg.headers),
       DlqHandler.publishAlert cfg env msg errMsg (DlqHandler.getRetryCount msg.headers),
       ChannelOp.ack] := by
  simp only [DlqHandler.handleRetryableError]
  rw [if_pos h]

theorem handleRetryableError_eq_retry (cfg : DlqConfig) (env : Env)
    (msg : ConsumeMessage) (errMsg : String)
    (h : DlqHandler.getRetryCount msg.headers < cfg.maxRetries) :
    DlqHandler.handleRetryableError cfg env msg errMsg =
      [ChannelOp.publish (cfg.exchange ++ ".delay") msg.routingKey msg.content
         (hset (hset (hset (hset msg.headers
           "x-delay" (HVal.int (DlqHandler.calculateDelay (DlqHandler.getRetryCount msg.headers))))
           "x-retry-count" (HVal.int (DlqHandler.getRetryCount msg.headers + 1)))
           "x-first-failure-timestamp" (DlqHandler.getFirstFailure env msg.headers))
           "x-last-error" (HVal.str errMsg)),
       ChannelOp.ack] := by
  simp only [DlqHandler.handleRetryableError]
  rw [if_neg (by omega)]

theorem firstPublishHeaders_cons_publish (ex rk : String) (c : List Nat)
    (hs : Headers) (rest : List ChannelOp) :
    firstPublishHeaders (ChannelOp.publish ex rk c hs :: rest) = some hs := by
  simp [firstPublishHeaders, List.find?_cons]

/-- C1 counterexample: the claim says the delay equals 57600000 for
every retry index at least 15, but `calculateDelay 15 = 1000 * 2^14 =
16384000`, strictly below the 16-hour cap. -/
theorem calculateDelay_cap_not_at_fifteen :
    DlqHandler.calculateDelay 15 = 16384000 ∧
    DlqHandler.calculateDelay 15 ≠ 57600000 := by
  constructor
  · decide
  · decide

/-- C1 (amended): for every retry index `r`, the retry delay is 0 at
`r = 0` and `min(1000 * 2^(r-1), 57600000)` otherwise; concretely
delay(1)=1000, delay(2)=2000, delay(3)=4000, delay(5)=16000,
delay(10)=512000, delay(15)=16384000, delay(16)=32768000, and the
16-hour cap binds exactly from `r = 17` onward. -/
theorem calculateDelay_schedule (r : Nat) (h : 17 ≤ r) :
    DlqHandler.calculateDelay 0 = 0 ∧
    DlqHandler.calculateDelay 1 = 1000 ∧
    DlqHandler.calculateDelay 2 = 2000 ∧
    DlqHandler.calculateDelay 3 = 4000 ∧
    DlqHandler.calculateDelay 5 = 16000 ∧
    DlqHandler.calculateDelay 10 = 512000 ∧
    DlqHandler.calculateDelay 15 = 16384000 ∧
    DlqHandler.calculateDelay 16 = 32768000 ∧
    (∀ s : Nat, s ≠ 0 →
      DlqHandler.calculateDelay s = min (1000 * 2 ^ (s - 1)) 57600000) ∧
    DlqHandler.calculateDelay r = 57600000 := by
  refine ⟨by decide, by decide, by decide, by decide, by decide, by decide,
    by decide, by decide, ?_, ?_⟩
  · intro s hs
    unfold DlqHandler.calculateDelay MAX_DELAY_MS
    rw [if_neg hs]
  · unfold DlqHandler.calculateDelay MAX_DELAY_MS
    rw [if_neg (by omega : ¬ r = 0)]
    have h16 : (16 : Nat) ≤ r - 1 := by omega
    have hpow : (2 : Nat) ^ 16 ≤ 2 ^ (r - 1) :=
      Nat.pow_le_pow_right (by norm_num) h16
    have hle : (16 * 60 * 60 * 1000 : Nat) ≤ 1000 * 2 ^ (r - 1) := by
      calc (16 * 60 * 60 * 1000 : Nat) ≤ 1000 * 2 ^ 16 := by norm_num
        _ ≤ 1000 * 2 ^ (r - 1) := Nat.mul_le_mul_left 1000 hpow
    rw [min_eq_right hle]

/-- Witness for the amended C1 schedule, instantiated at r = 17. -/
theorem calculateDelay_schedule_witness :
    (17 : Nat) ≤ 17 ∧ DlqHandler.calculateDelay 17 = 57600000 :=
  ⟨by decide, (calculateDelay_schedule 17 (by decide)).2.2.2.2.2.2.2.2.2⟩

theorem dlq_beq_delay_false (s : String) :
    ((s ++ ".dlq") == (s ++ ".delay")) = false :=
  beq_eq_false_iff_ne.mpr (dlq_ne_delay s)

theorem delay_beq_dlq_false (s : String) :
    ((s ++ ".delay") == (s ++ ".dlq")) = false :=
  beq_eq_false_iff_ne.mpr (delay_ne_dlq s)

/-- C2: `handleRetryableError` dead-letters (publishes to the
dead-letter exchange, publishes an alert, acks, and does not republish
for retry) exactly when the incoming retry count is at least
`maxRetries`; a count equal to `maxRetries` is dead-lettered, a count
equal to `maxRetries - 1` is republished for one more retry. -/
theorem handleRetryableError_exhaustion_boundary (cfg : DlqConfig) (env : Env)
    (msg : ConsumeMessage) (errMsg : String) :
    (deadLetters cfg (DlqHandler.handleRetryableError cfg env msg errMsg) = true ∧
     alertPublished (DlqHandler.handleRetryableError cfg env msg errMsg) = true ∧
     acked (DlqHandler.handleRetryableError cfg env msg errMsg) = true ∧
     retried cfg (DlqHandler.handleRetryableError cfg env msg errMsg) = false
       ↔ cfg.maxRetries ≤ DlqHandler.getRetryCount msg.headers) ∧
    (DlqHandler.getRetryCount msg.headers = cfg.maxRetries →
      deadLetters cfg (DlqHandler.handleRetryableError cfg env msg errMsg) = true ∧
      retried cfg (DlqHandler.handleRetryableError cfg env msg errMsg) = false) ∧
    (DlqHandler.getRetryCount msg.headers + 1 = cfg.maxRetries →
      retried cfg (DlqHandler.handleRetryableError cfg env msg errMsg) = true ∧
      deadLetters cfg (DlqHandler.handleRetryableError cfg env msg errMsg) = false) := by
  by_cases hc : cfg.maxRetries ≤ DlqHandler.getRetryCount msg.headers
  · rw [handleRetryableError_eq_exhausted cfg env msg errMsg hc]
    have hdl : deadLetters cfg
        [DlqHandler.routeToDlq cfg msg errMsg (DlqHandler.getRetryCount msg.headers)
           (DlqHandler.getFirstFailure env msg.headers),
         DlqHandler.publishAlert cfg env msg errMsg (DlqHandler.getRetryCount msg.headers),
         ChannelOp.ack] = true := by
      simp [deadLetters, DlqHandler.routeToDlq, DlqHandler.publishAlert]
    have hre : retried cfg
        [DlqHandler.routeToDlq cfg msg errMsg (DlqHandler.getRetryCount msg.headers)
           (DlqHandler.getFirstFailure env msg.headers),
         DlqHandler.publishAlert cfg env msg errMsg (DlqHandler.getRetryCount msg.headers),
         ChannelOp.ack] = false := by
      simp [retried, DlqHandler.routeToDlq, DlqHandler.publishAlert,
        dlq_beq_delay_false]
    have hal : alertPublished
        [DlqHandler.routeToDlq cfg msg errMsg (DlqHandler.getRetryCount msg.headers)
           (DlqHandler.getFirstFailure env msg.headers),
         DlqHandler.publishAlert cfg env msg errMsg (DlqHandler.getRetryCount msg.headers),
         ChannelOp.ack] = true := by
      simp [alertPublished, DlqHandler.routeToDlq, DlqHandler.publishAlert]
    have hak : acked
        [DlqHandler.routeToDlq cfg msg errMsg (DlqHandler.getRetryCount msg.headers)
           (DlqHandler.getFirstFailure env msg.headers),
         DlqHandler.publishAlert cfg env msg errMsg (DlqHandler.getRetryCount msg.headers),
         ChannelOp.ack] = true := by
      simp [acked, DlqHandler.routeToDlq, DlqHandler.publishAlert]
    refine ⟨⟨fun _ => hc, fun _ => ⟨hdl, hal, hak, hre⟩⟩, fun _ => ⟨hdl, hre⟩, ?_⟩
    intro hb
    exact absurd hb (by omega)
  · have hlt : DlqHandler.getRetryCount msg.headers < cfg.maxRetries := by omega
    rw [handleRetryableError_eq_retry cfg env msg errMsg hlt]
    have hdl : deadLetters cfg
        [ChannelOp.publish (cfg.exchange ++ ".delay") msg.routingKey msg.content
           (hset (hset (hset (hset msg.headers
             "x-delay" (HVal.int (DlqHandler.calculateDelay (DlqHandler.getRetryCount msg.headers))))
             "x-retry-count" (HVal.int (DlqHandler.getRetryCount msg.headers + 1)))
             "x-first-failure-timestamp" (DlqHandler.getFirstFailure env msg.headers))
             "x-last-error" (HVal.str errMsg)),
         ChannelOp.ack] = false := by
      simp [deadLetters, delay_beq_dlq_false]
    have hre : retried cfg
        [ChannelOp.publish (cfg.exchange ++ ".delay") msg.routingKey msg.content
           (hset (hset (hset (hset msg.headers
             "x-delay" (HVal.int (DlqHandler.calculateDelay (DlqHandler.getRetryCount msg.headers))))
             "x-retry-count" (HVal.int (DlqHandler.getRetryCount msg.headers + 1)))
             "x-first-failure-timestamp" (DlqHandler.getFirstFailure env msg.headers))
             "x-last-error" (HVal.str errMsg)),
         ChannelOp.ack] = true := by
      simp [retried]
    refine ⟨⟨?_, fun habs => absurd habs hc⟩, ?_, fun _ => ⟨hre, hdl⟩⟩
    · rintro ⟨hd, -, -, -⟩
      rw [hdl] at hd
      exact absurd hd (by simp)
    · intro heq
      exact absurd heq (by omega)

/-- Witness for C2 at the boundary: with `maxRetries = 20`, an incoming
count of 20 is dead-lettered and an incoming count of 19 is retried. -/
theorem handleRetryableError_exhaustion_boundary_witness :
    deadLetters cfgEx (DlqHandler.handleRetryableError cfgEx envEx msgEx20 "boom") = true ∧
    retried cfgEx (DlqHandler.handleRetryableError cfgEx envEx msgEx19 "boom") = true :=
  ⟨((handleRetryableError_exhaustion_boundary cfgEx envEx msgEx20 "boom").2.1 (by decide)).1,
   ((handleRetryableError_exhaustion_boundary cfgEx envEx msgEx19 "boom").2.2 (by decide)).1⟩

/-- C3 counterexample: a retryable failure handled by
`handleRetryableError` with incoming `x-retry-count = 20` (equal to
`maxRetries`) publishes `x-retry-count = 20` on its outbound
(dead-letter) publish — the incoming count plus 0, not plus 1. -/
theorem retryCount_unchanged_on_exhausted_retryable :
    DlqHandler.getRetryCount msgEx20.headers = 20 ∧
    (firstPublishHeaders (DlqHandler.handleRetryableError cfgEx envEx msgEx20 "boom")).bind
      (fun hs => hget hs "x-retry-count") = some (HVal.int 20) ∧
    some (HVal.int 20) ≠ some (HVal.int 21) := by
  refine ⟨by decide, by decide, by decide⟩

/-- C3 (amended): the outbound `x-retry-count` is the incoming count
plus exactly 1 on the retry republish (incoming count below
`maxRetries`); on the exhausted retryable path and on the whole
non-retryable path the incoming count is written unchanged. -/
theorem retryCount_increment_policy (cfg : DlqConfig) (env : Env)
    (msg : ConsumeMessage) (errMsg : String) :
    (DlqHandler.getRetryCount msg.headers < cfg.maxRetries →
      (firstPublishHeaders (DlqHandler.handleRetryableError cfg env msg errMsg)).bind
        (fun hs => hget hs "x-retry-count")
        = some (HVal.int (DlqHandler.getRetryCount msg.headers + 1))) ∧
    (cfg.maxRetries ≤ DlqHandler.getRetryCount msg.headers →
      (firstPublishHeaders (DlqHandler.handleRetryableError cfg env msg errMsg)).bind
        (fun hs => hget hs "x-retry-count")
        = some (HVal.int (DlqHandler.getRetryCount msg.headers))) ∧
    (firstPublishHeaders (DlqHandler.handleNonRetryableError cfg env msg errMsg)).bind
      (fun hs => hget hs "x-retry-count")
      = some (HVal.int (DlqHandler.getRetryCount msg.headers)) := by
  refine ⟨?_, ?_, ?_⟩
  · intro hlt
    rw [handleRetryableError_eq_retry cfg env msg errMsg hlt,
      firstPublishHeaders_cons_publish]
    simp only [Option.some_bind]
    rw [hget_hset_ne _ _ _ _ (by decide : "x-retry-count" ≠ "x-last-error"),
      hget_hset_ne _ _ _ _ (by decide : "x-retry-count" ≠ "x-first-failure-timestamp"),
      hget_hset_self]
  · intro hge
    rw [handleRetryableError_eq_exhausted cfg env msg errMsg hge]
    simp only [DlqHandler.routeToDlq]
    rw [firstPublishHeaders_cons_publish]
    simp only [Option.some_bind]
    rw [hget_hset_ne _ _ _ _ (by decide : "x-retry-count" ≠ "x-last-error"),
      hget_hset_ne _ _ _ _ (by decide : "x-retry-count" ≠ "x-first-failure-timestamp"),
      hget_hset_self]
  · simp only [DlqHandler.handleNonRetryableError, DlqHandler.routeToDlq]
    rw [firstPublishHeaders_cons_publish]
    simp only [Option.some_bind]
    rw [hget_hset_ne _ _ _ _ (by decide : "x-retry-count" ≠ "x-last-error"),
      hget_hset_ne _ _ _ _ (by decide : "x-retry-count" ≠ "x-first-failure-timestamp"),
      hget_hset_self]

/-- Witness for the amended C3: an incoming count of 3 is republished
with `x-retry-count = 4`. -/
theorem retryCount_increment_policy_witness :
    (firstPublishHeaders (DlqHandler.handleRetryableError cfgEx envEx msgEx3 "db timeout")).bind
      (fun hs => hget hs "x-retry-count") = some (HVal.int 4) :=
  (retryCount_increment_policy cfgEx envEx msgEx3 "db timeout").1 (by decide)

theorem ffOut_retryable (cfg : DlqConfig) (env : Env) (msg : ConsumeMessage)
    (errMsg : String) :
    (firstPublishHeaders (DlqHandler.handleRetryableError cfg env msg errMsg)).bind
      (fun hs => hget hs "x-first-failure-timestamp")
      = some (DlqHandler.getFirstFailure env msg.headers) := by
  by_cases hc : cfg.maxRetries ≤ DlqHandler.getRetryCount msg.headers
  · rw [handleRetryableError_eq_exhausted cfg env msg errMsg hc]
    simp only [DlqHandler.routeToDlq]
    rw [firstPublishHeaders_cons_publish]
    simp only [Option.some_bind]
    rw [hget_hset_ne _ _ _ _ (by decide : "x-first-failure-timestamp" ≠ "x-last-error"),
      hget_hset_self]
  · rw [handleRetryableError_eq_retry cfg env msg errMsg (by omega),
      firstPublishHeaders_cons_publish]
    simp only [Option.some_bind]
    rw [hget_hset_ne _ _ _ _ (by decide : "x-first-failure-timestamp" ≠ "x-last-error"),
      hget_hset_self]

theorem ffOut_nonretryable (cfg : DlqConfig) (env : Env) (msg : ConsumeMessage)
    (errMsg : String) :
    (firstPublishHeaders (DlqHandler.handleNonRetryableError cfg env msg errMsg)).bind
      (fun hs => hget hs "x-first-failure-timestamp")
      = some (DlqHandler.getFirstFailure env msg.headers) := by
  simp only [DlqHandler.handleNonRetryableError, DlqHandler.routeToDlq]
  rw [firstPublishHeaders_cons_publish]
  simp only [Option.some_bind]
  rw [hget_hset_ne _ _ _ _ (by decide : "x-first-failure-timestamp" ≠ "x-last-error"),
    hget_hset_self]

/-- C4: when the incoming message already carries
`x-first-failure-timestamp`, both `handleRetryableError` and
`handleNonRetryableError` write that exact string value unchanged to
the outbound publish; a fresh timestamp (`env.now`) is written only
when the header is absent. -/
theorem firstFailureTimestamp_preserved (cfg : DlqConfig) (env : Env)
    (msg : ConsumeMessage) (errMsg : String) :
    (∀ v : String, hget msg.headers "x-first-failure-timestamp" = some (HVal.str v) →
      (firstPublishHeaders (DlqHandler.handleRetryableError cfg env msg errMsg)).bind
        (fun hs => hget hs "x-first-failure-timestamp") = some (HVal.str v) ∧
      (firstPublishHeaders (DlqHandler.handleNonRetryableError cfg env msg errMsg)).bind
        (fun hs => hget hs "x-first-failure-timestamp") = some (HVal.str v)) ∧
    (hget msg.headers "x-first-failure-timestamp" = none →
      (firstPublishHeaders (DlqHandler.handleRetryableError cfg env msg errMsg)).bind
        (fun hs => hget hs "x-first-failure-timestamp") = some (HVal.str env.now) ∧
      (firstPublishHeaders (DlqHandler.handleNonRetryableError cfg env msg errMsg)).bind
        (fun hs => hget hs "x-first-failure-timestamp") = some (HVal.str env.now)) := by
  constructor
  · intro v hv
    have hff : DlqHandler.getFirstFailure env msg.headers = HVal.str v := by
      unfold DlqHandler.getFirstFailure
      rw [hv]
      rfl
    rw [ffOut_retryable cfg env msg errMsg, ffOut_nonretryable cfg env msg errMsg, hff]
    exact ⟨rfl, rfl⟩
  · intro hv
    have hff : DlqHandler.getFirstFailure env msg.headers = HVal.str env.now := by
      unfold DlqHandler.getFirstFailure
      rw [hv]
      rfl
    rw [ffOut_retryable cfg env msg errMsg, ffOut_nonretryable cfg env msg errMsg, hff]
    exact ⟨rfl, rfl⟩

/-- Witness for C4: a message carrying the timestamp
"2023-12-31T23:00:00.000Z" keeps it byte-identical on the republish. -/
theorem firstFailureTimestamp_preserved_witness :
    (firstPublishHeaders (DlqHandler.handleRetryableError cfgEx envEx msgEx3 "boom")).bind
      (fun hs => hget hs "x-first-failure-timestamp")
      = some (HVal.str "2023-12-31T23:00:00.000Z") :=
  ((firstFailureTimestamp_preserved cfgEx envEx msgEx3 "boom").1
    "2023-12-31T23:00:00.000Z" (by decide)).1

/-- C9: alert construction never fails — for every payload the alert's
`originalMessage` is the JSON-decoded payload when it parses and the
raw text otherwise, the remaining fields are always well-formed, and
the alert is published on both terminal paths (non-retryable, and
retryable with exhausted retries). -/
theorem alert_always_wellformed (cfg : DlqConfig) (env : Env)
    (msg : ConsumeMessage) (errMsg : String) :
    (∀ j, env.parseJson (env.decodeText msg.content) = some j →
      (DlqHandler.buildAlert cfg env msg errMsg
        (DlqHandler.getRetryCount msg.headers)).originalMessage = OrigMsg.json j) ∧
    (env.parseJson (env.decodeText msg.content) = none →
      (DlqHandler.buildAlert cfg env msg errMsg
        (DlqHandler.getRetryCount msg.headers)).originalMessage
        = OrigMsg.text (env.decodeText msg.content)) ∧
    (DlqHandler.buildAlert cfg env msg errMsg
      (DlqHandler.getRetryCount msg.headers)).service = cfg.serviceName ∧
    (DlqHandler.buildAlert cfg env msg errMsg
      (DlqHandler.getRetryCount msg.headers)).queue = cfg.queue ∧
    (DlqHandler.buildAlert cfg env msg errMsg
      (DlqHandler.getRetryCount msg.headers)).error = errMsg ∧
    (DlqHandler.buildAlert cfg env msg errMsg
      (DlqHandler.getRetryCount msg.headers)).retryCount
      = DlqHandler.getRetryCount msg.headers ∧
    (DlqHandler.buildAlert cfg env msg errMsg
      (DlqHandler.getRetryCount msg.headers)).timestamp = env.now ∧
    DlqHandler.publishAlert cfg env msg errMsg (DlqHandler.getRetryCount msg.headers)
      ∈ DlqHandler.handleNonRetryableError cfg env msg errMsg ∧
    (cfg.maxRetries ≤ DlqHandler.getRetryCount msg.headers →
      DlqHandler.publishAlert cfg env msg errMsg (DlqHandler.getRetryCount msg.headers)
        ∈ DlqHandler.handleRetryableError cfg env msg errMsg) := by
  refine ⟨?_, ?_, rfl, rfl, rfl, rfl, rfl, ?_, ?_⟩
  · intro j hj
    simp only [DlqHandler.buildAlert, hj]
  · intro hn
    simp only [DlqHandler.buildAlert, hn]
  · simp [DlqHandler.handleNonRetryableError]
  · intro hge
    rw [handleRetryableError_eq_exhausted cfg env msg errMsg hge]
    simp

/-- Witness for C9: with a parsing payload the alert holds the parsed
JSON, with a non-parsing payload it holds the raw text. -/
theorem alert_always_wellformed_witness :
    (DlqHandler.buildAlert cfgEx envExJson msgEx3 "boom"
      (DlqHandler.getRetryCount msgEx3.headers)).originalMessage
      = OrigMsg.json (Json.str "parsed") ∧
    (DlqHandler.buildAlert cfgEx envEx msgEx3 "boom"
      (DlqHandler.getRetryCount msgEx3.headers)).originalMessage
      = OrigMsg.text "raw-text" :=
  ⟨(alert_always_wellformed cfgEx envExJson msgEx3 "boom").1 (Json.str "parsed") rfl,
   (alert_always_wellformed cfgEx envEx msgEx3 "boom").2.1 rfl⟩

/-- C10: on both the retry republish and the dead-letter publish, every
pre-existing header whose key is none of `x-delay`, `x-retry-count`,
`x-first-failure-timestamp`, `x-last-error` is looked up unchanged in
the published headers, and the published payload bytes are exactly the
incoming content. -/
theorem unrelated_headers_and_payload_preserved (cfg : DlqConfig) (env : Env)
    (msg : ConsumeMessage) (errMsg : String) (k : String)
    (h1 : k ≠ "x-delay") (h2 : k ≠ "x-retry-count")
    (h3 : k ≠ "x-first-failure-timestamp") (h4 : k ≠ "x-last-error") :
    (∀ ex rk c hs,
      ChannelOp.publish ex rk c hs ∈ DlqHandler.handleRetryableError cfg env msg errMsg →
      hget hs k = hget msg.headers k ∧ c = msg.content) ∧
    (∀ ex rk c hs,
      ChannelOp.publish ex rk c hs ∈ DlqHandler.handleNonRetryableError cfg env msg errMsg →
      hget hs k = hget msg.headers k ∧ c = msg.content) := by
  constructor
  · intro ex rk c hs hmem
    by_cases hc : cfg.maxRetries ≤ DlqHandler.getRetryCount msg.headers
    · rw [handleRetryableError_eq_exhausted cfg env msg errMsg hc] at hmem
      simp only [DlqHandler.routeToDlq, DlqHandler.publishAlert,
        List.mem_cons, List.not_mem_nil, or_false] at hmem
      rcases hmem with hmem | hmem | hmem
      · obtain ⟨-, -, hcnt, hhs⟩ := ChannelOp.publish.inj hmem
        subst hcnt
        subst hhs
        refine ⟨?_, rfl⟩
        rw [hget_hset_ne _ _ _ _ h4, hget_hset_ne _ _ _ _ h3,
          hget_hset_ne _ _ _ _ h2]
      · exact absurd hmem (by simp)
      · exact absurd hmem (by simp)
    · rw [handleRetryableError_eq_retry cfg env msg errMsg (by omega)] at hmem
      simp only [List.mem_cons, List.not_mem_nil, or_false] at hmem
      rcases hmem with hmem | hmem
      · obtain ⟨-, -, hcnt, hhs⟩ := ChannelOp.publish.inj hmem
        subst hcnt
        subst hhs
        refine ⟨?_, rfl⟩
        rw [hget_hset_ne _ _ _ _ h4, hget_hset_ne _ _ _ _ h3,
          hget_hset_ne _ _ _ _ h2, hget_hset_ne _ _ _ _ h1]
      · exact absurd hmem (by simp)
  · intro ex rk c hs hmem
    simp only [DlqHandler.handleNonRetryableError, DlqHandler.routeToDlq,
      DlqHandler.publishAlert, List.mem_cons, List.not_mem_nil, or_false] at hmem
    rcases hmem with hmem | hmem | hmem
    · obtain ⟨-, -, hcnt, hhs⟩ := ChannelOp.publish.inj hmem
      subst hcnt
      subst hhs
      refine ⟨?_, rfl⟩
      rw [hget_hset_ne _ _ _ _ h4, hget_hset_ne _ _ _ _ h3,
        hget_hset_ne _ _ _ _ h2]
    · exact absurd hmem (by simp)
    · exact absurd hmem (by simp)

/-- Witness for C10: the unrelated `trace-id` header of `msgEx3` is
looked up unchanged in the dead-letter publish's headers. -/
theorem unrelated_headers_and_payload_preserved_witness :
    hget (hset (hset (hset msgEx3.headers
        "x-retry-count" (HVal.int (DlqHandler.getRetryCount msgEx3.headers)))
        "x-first-failure-timestamp" (DlqHandler.getFirstFailure envEx msgEx3.headers))
        "x-last-error" (HVal.str "boom")) "trace-id"
      = hget msgEx3.headers "trace-id" :=
  ((unrelated_headers_and_payload_preserved cfgEx envEx msgEx3 "boom" "trace-id"
      (by decide) (by decide) (by decide) (by decide)).2
    (cfgEx.exchange ++ ".dlq") cfgEx.queue msgEx3.content
    (hset (hset (hset msgEx3.headers
        "x-retry-count" (HVal.int (DlqHandler.getRetryCount msgEx3.headers)))
        "x-first-failure-timestamp" (DlqHandler.getFirstFailure envEx msgEx3.headers))
        "x-last-error" (HVal.str "boom"))
    (by simp [DlqHandler.handleNonRetryableError, DlqHandler.routeToDlq])).1

namespace ConnectionManager

theorem connectLoop_eq_success (cfg : ConnCfg) (attempts : Nat → ConnAttempt)
    (attempt remaining conn ch : Nat)
    (h : attempts attempt = ConnAttempt.success conn ch) :
    connectLoop cfg attempts attempt remaining =
      ({ attemptsMade := 1, sleeps := [] }, Except.ok (conn, ch)) := by
  rw [connectLoop, h]

theorem connectLoop_eq_failure_zero (cfg : ConnCfg) (attempts : Nat → ConnAttempt)
    (attempt : Nat) (err : String)
    (h : attempts attempt = ConnAttempt.failure err) :
    connectLoop cfg attempts attempt 0 =
      ({ attemptsMade := 1, sleeps := [] },
       Except.error (connFailedError cfg err)) := by
  rw [connectLoop, h]

theorem connectLoop_eq_failure_succ (cfg : ConnCfg) (attempts : Nat → ConnAttempt)
    (attempt : Nat) (err : String) (r : Nat)
    (h : attempts attempt = ConnAttempt.failure err) :
    connectLoop cfg attempts attempt (r + 1) =
      ({ attemptsMade := (connectLoop cfg attempts (attempt + 1) r).1.attemptsMade + 1,
         sleeps := calculateBackoff cfg attempt ::
           (connectLoop cfg attempts (attempt + 1) r).1.sleeps },
       (connectLoop cfg attempts (attempt + 1) r).2) := by
  rw [connectLoop, h]

theorem connectLoop_attempts_pos (cfg : ConnCfg) (attempts : Nat → ConnAttempt) :
    ∀ remaining attempt, 1 ≤ (connectLoop cfg attempts attempt remaining).1.attemptsMade := by
  intro remaining attempt
  cases h : attempts attempt with
  | success conn ch => rw [connectLoop_eq_success cfg attempts attempt remaining conn ch h]
  | failure err =>
      cases remaining with
      | zero => rw [connectLoop_eq_failure_zero cfg attempts attempt err h]
      | succ r =>
          rw [connectLoop_eq_failure_succ cfg attempts attempt err r h]
          exact Nat.le_add_left 1 _

theorem connectLoop_attempts_le (cfg : ConnCfg) (attempts : Nat → ConnAttempt) :
    ∀ remaining attempt,
      (connectLoop cfg attempts attempt remaining).1.attemptsMade ≤ remaining + 1 := by
  intro remaining
  induction remaining with
  | zero =>
      intro attempt
      cases h : attempts attempt with
      | success conn ch => rw [connectLoop_eq_success cfg attempts attempt 0 conn ch h]
      | failure err => rw [connectLoop_eq_failure_zero cfg attempts attempt err h]
  | succ r ih =>
      intro attempt
      cases h : attempts attempt with
      | success conn ch =>
          rw [connectLoop_eq_success cfg attempts attempt (r + 1) conn ch h]
          show 1 ≤ r + 1 + 1
          omega
      | failure err =>
          rw [connectLoop_eq_failure_succ cfg attempts attempt err r h]
          have := ih (attempt + 1)
          simp only []
          omega

theorem connectLoop_sleeps (cfg : ConnCfg) (attempts : Nat → ConnAttempt) :
    ∀ remaining attempt,
      (connectLoop cfg attempts attempt remaining).1.sleeps =
        (List.range ((connectLoop cfg attempts attempt remaining).1.attemptsMade - 1)).map
          (fun j => calculateBackoff cfg (attempt + j)) := by
  intro remaining
  induction remaining with
  | zero =>
      intro attempt
      cases h : attempts attempt with
      | success conn ch =>
          rw [connectLoop_eq_success cfg attempts attempt 0 conn ch h]
          rfl
      | failure err =>
          rw [connectLoop_eq_failure_zero cfg attempts attempt err h]
          rfl
  | succ r ih =>
      intro attempt
      cases h : attempts attempt with
      | success conn ch =>
          rw [connectLoop_eq_success cfg attempts attempt (r + 1) conn ch h]
          rfl
      | failure err =>
          rw [connectLoop_eq_failure_succ cfg attempts attempt err r h]
          have hpos := connectLoop_attempts_pos cfg attempts r (attempt + 1)
          obtain ⟨m, hm⟩ : ∃ m,
              (connectLoop cfg attempts (attempt + 1) r).1.attemptsMade = m + 1 :=
            ⟨(connectLoop cfg attempts (attempt + 1) r).1.attemptsMade - 1, by omega⟩
          simp only []
          rw [ih (attempt + 1), hm]
          simp only [Nat.add_sub_cancel, List.range_succ_eq_map, List.map_cons,
            List.map_map, Nat.add_zero]
          congr 1
          apply List.map_congr_left
          intro a _
          simp only [Function.comp_apply]
          have hsh : attempt + 1 + a = attempt + (a + 1) := by omega
          rw [hsh]

theorem connectLoop_all_fail (cfg : ConnCfg) (attempts : Nat → ConnAttempt) :
    ∀ remaining attempt,
      (∀ i, i ≤ remaining → ∃ m, attempts (attempt + i) = ConnAttempt.failure m) →
      (connectLoop cfg attempts attempt remaining).1.attemptsMade = remaining + 1 ∧
      ∃ m, attempts (attempt + remaining) = ConnAttempt.failure m ∧
        (connectLoop cfg attempts attempt remaining).2 =
          Except.error (connFailedError cfg m) := by
  intro remaining
  induction remaining with
  | zero =>
      intro attempt h
      obtain ⟨m, hm⟩ := h 0 (Nat.le_refl 0)
      rw [Nat.add_zero] at hm
      rw [connectLoop_eq_failure_zero cfg attempts attempt m hm]
      exact ⟨rfl, m, by rw [Nat.add_zero]; exact hm, rfl⟩
  | succ r ih =>
      intro attempt h
      obtain ⟨m0, hm0⟩ := h 0 (Nat.zero_le _)
      rw [Nat.add_zero] at hm0
      have hshift : ∀ i, i ≤ r → ∃ m, attempts (attempt + 1 + i) = ConnAttempt.failure m := by
        intro i hi
        obtain ⟨m, hm⟩ := h (i + 1) (by omega)
        exact ⟨m, by rw [show attempt + 1 + i = attempt + (i + 1) by omega]; exact hm⟩
      obtain ⟨hn, m, hm, herr⟩ := ih (attempt + 1) hshift
      rw [connectLoop_eq_failure_succ cfg attempts attempt m0 r hm0]
      refine ⟨?_, m, ?_, ?_⟩
      · simp only []
        omega
      · rw [show attempt + (r + 1) = attempt + 1 + r by omega]
        exact hm
      · exact herr

theorem connectLoop_success (cfg : ConnCfg) (attempts : Nat → ConnAttempt) :
    ∀ remaining attempt i conn ch,
      i ≤ remaining →
      attempts (attempt + i) = ConnAttempt.success conn ch →
      (∀ j, j < i → ∃ m, attempts (attempt + j) = ConnAttempt.failure m) →
      (connectLoop cfg attempts attempt remaining).2 = Except.ok (conn, ch) ∧
      (connectLoop cfg attempts attempt remaining).1.attemptsMade = i + 1 := by
  intro remaining
  induction remaining with
  | zero =>
      intro attempt i conn ch hi hs _
      have hi0 : i = 0 := by omega
      subst hi0
      rw [Nat.add_zero] at hs
      rw [connectLoop_eq_success cfg attempts attempt 0 conn ch hs]
      exact ⟨rfl, rfl⟩
  | succ r ih =>
      intro attempt i conn ch hi hs hprev
      cases i with
      | zero =>
          rw [Nat.add_zero] at hs
          rw [connectLoop_eq_success cfg attempts attempt (r + 1) conn ch hs]
          exact ⟨rfl, rfl⟩
      | succ j =>
          obtain ⟨m0, hm0⟩ := hprev 0 (Nat.succ_pos j)
          rw [Nat.add_zero] at hm0
          have hs' : attempts (attempt + 1 + j) = ConnAttempt.success conn ch := by
            rw [show attempt + 1 + j = attempt + (j + 1) by omega]
            exact hs
          have hprev' : ∀ j2, j2 < j →
              ∃ m, attempts (attempt + 1 + j2) = ConnAttempt.failure m := by
            intro j2 hj2
            obtain ⟨m, hm⟩ := hprev (j2 + 1) (by omega)
            exact ⟨m, by rw [show attempt + 1 + j2 = attempt + (j2 + 1) by omega]; exact hm⟩
          obtain ⟨hok, hn⟩ := ih (attempt + 1) j conn ch (by omega) hs' hprev'
          rw [connectLoop_eq_failure_succ cfg attempts attempt m0 r hm0]
          constructor
          · exact hok
          · simp only []
            omega

theorem connect_trace_eq (cfg : ConnCfg) (st : ManagerState)
    (attempts : Nat → ConnAttempt) :
    (connect cfg st attempts).2.1 =
      (connectLoop cfg attempts 0 cfg.reconnectAttempts).1 := by
  cases h : (connectLoop cfg attempts 0 cfg.reconnectAttempts).2 with
  | ok v =>
      obtain ⟨conn, ch⟩ := v
      simp [connect, h]
  | error e => simp [connect, h]

theorem connect_of_loop_error (cfg : ConnCfg) (st : ManagerState)
    (attempts : Nat → ConnAttempt) (e : ConnectionError)
    (h : (connectLoop cfg attempts 0 cfg.reconnectAttempts).2 = Except.error e) :
    (connect cfg st attempts).1.currentState = ConnState.disconnected ∧
    (connect cfg st attempts).2.2 = Except.error e := by
  constructor <;> simp [connect, h]

theorem connect_of_loop_ok (cfg : ConnCfg) (st : ManagerState)
    (attempts : Nat → ConnAttempt) (conn ch : Nat)
    (h : (connectLoop cfg attempts 0 cfg.reconnectAttempts).2 = Except.ok (conn, ch)) :
    (connect cfg st attempts).1.currentState = ConnState.connected ∧
    (connect cfg st attempts).2.2 = Except.ok () := by
  constructor <;> simp [connect, h]

end ConnectionManager

/-- C5: `connect()` makes at most `reconnectAttempts + 1` attempts and
sleeps `reconnectDelayMs * 2^i` (uncapped) between attempt `i` and
`i + 1`; if every attempt fails it ends `disconnected` with a
`ConnectionError` whose context carries the last underlying error's
message; on the first successful attempt it ends `connected` and makes
no further attempts. -/
theorem connect_bounded_backoff_retry (cfg : ConnCfg) (st : ManagerState)
    (attempts : Nat → ConnAttempt) :
    (ConnectionManager.connect cfg st attempts).2.1.attemptsMade ≤ cfg.reconnectAttempts + 1 ∧
    (ConnectionManager.connect cfg st attempts).2.1.sleeps =
      (List.range ((ConnectionManager.connect cfg st attempts).2.1.attemptsMade - 1)).map
        (ConnectionManager.calculateBackoff cfg) ∧
    ((∀ i, i ≤ cfg.reconnectAttempts → ∃ m, attempts i = ConnAttempt.failure m) →
      (ConnectionManager.connect cfg st attempts).1.currentState = ConnState.disconnected ∧
      (ConnectionManager.connect cfg st attempts).2.1.attemptsMade = cfg.reconnectAttempts + 1 ∧
      ∃ m, attempts cfg.reconnectAttempts = ConnAttempt.failure m ∧
        (ConnectionManager.connect cfg st attempts).2.2 =
          Except.error (ConnectionManager.connFailedError cfg m)) ∧
    (∀ i conn ch, i ≤ cfg.reconnectAttempts →
      attempts i = ConnAttempt.success conn ch →
      (∀ j, j < i → ∃ m, attempts j = ConnAttempt.failure m) →
      (ConnectionManager.connect cfg st attempts).1.currentState = ConnState.connected ∧
      (ConnectionManager.connect cfg st attempts).2.2 = Except.ok () ∧
      (ConnectionManager.connect cfg st attempts).2.1.attemptsMade = i + 1) := by
  refine ⟨?_, ?_, ?_, ?_⟩
  · rw [ConnectionManager.connect_trace_eq]
    exact ConnectionManager.connectLoop_attempts_le cfg attempts cfg.reconnectAttempts 0
  · rw [ConnectionManager.connect_trace_eq,
      ConnectionManager.connectLoop_sleeps cfg attempts cfg.reconnectAttempts 0]
    simp only [Nat.zero_add]
  · intro h
    have h0 : ∀ i, i ≤ cfg.reconnectAttempts →
        ∃ m, attempts (0 + i) = ConnAttempt.failure m := by
      intro i hi
      rw [Nat.zero_add]
      exact h i hi
    obtain ⟨hn, m, hm, herr⟩ :=
      ConnectionManager.connectLoop_all_fail cfg attempts cfg.reconnectAttempts 0 h0
    rw [Nat.zero_add] at hm
    obtain ⟨hst, hres⟩ := ConnectionManager.connect_of_loop_error cfg st attempts _ herr
    refine ⟨hst, ?_, m, hm, hres⟩
    rw [ConnectionManager.connect_trace_eq]
    exact hn
  · intro i conn ch hi hs hprev
    have hs0 : attempts (0 + i) = ConnAttempt.success conn ch := by
      rw [Nat.zero_add]
      exact hs
    have hprev0 : ∀ j, j < i → ∃ m, attempts (0 + j) = ConnAttempt.failure m := by
      intro j hj
      rw [Nat.zero_add]
      exact hprev j hj
    obtain ⟨hok, hn⟩ := ConnectionManager.connectLoop_success cfg attempts
      cfg.reconnectAttempts 0 i conn ch hi hs0 hprev0
    obtain ⟨hst, hres⟩ := ConnectionManager.connect_of_loop_ok cfg st attempts conn ch hok
    refine ⟨hst, hres, ?_⟩
    rw [ConnectionManager.connect_trace_eq]
    exact hn

/-- Witness for C5: with 2 retries, all attempts failing ends
disconnected; a failure followed by a success ends connected. -/
theorem connect_bounded_backoff_retry_witness :
    (ConnectionManager.connect cfgConnEx stDisconnectedEx attemptsFailEx).1.currentState
      = ConnState.disconnected ∧
    (ConnectionManager.connect cfgConnEx stDisconnectedEx attemptsOkEx).1.currentState
      = ConnState.connected :=
  ⟨((connect_bounded_backoff_retry cfgConnEx stDisconnectedEx attemptsFailEx).2.2.1
      (fun _ _ => ⟨"ECONNREFUSED", rfl⟩)).1,
   ((connect_bounded_backoff_retry cfgConnEx stDisconnectedEx attemptsOkEx).2.2.2
      1 7 8 (by decide) rfl
      (fun j hj => by
        have hj0 : j = 0 := by omega
        subst hj0
        exact ⟨"ECONNREFUSED", rfl⟩)).1⟩

theorem close_state_disconnected (st : ManagerState) (chErr coErr : Option String) :
    (ConnectionManager.close st chErr coErr).1.currentState = ConnState.disconnected := by
  obtain ⟨conn, ch, cs⟩ := st
  cases ch <;> cases chErr <;> cases conn <;> cases coErr <;> rfl

/-- C6 counterexample: after a `close()` in which closing the channel
threw, the manager is currently `disconnected` yet `getChannel()`
returns the stale channel instead of failing with a ConnectionError. -/
theorem getChannel_ok_after_failed_close :
    (ConnectionManager.close stConnectedEx (some "channel close failed") none).1.currentState
      = ConnState.disconnected ∧
    (ConnectionManager.close stConnectedEx (some "channel close failed") none).2
      = Except.error "channel close failed" ∧
    ConnectionManager.getChannel
      (ConnectionManager.close stConnectedEx (some "channel close failed") none).1
      = Except.ok 1 :=
  ⟨rfl, rfl, rfl⟩

/-- C6 (amended): `getChannel()` returns the channel when the reference
exists and fails with a ConnectionError exactly when the reference is
null (never connected, or cleared by a `close()` whose channel-close
succeeded); when the channel-close inside `close()` throws, the
reference survives and `getChannel()` still returns it even though the
manager is `disconnected`. -/
theorem getChannel_null_channel_spec (st : ManagerState) :
    (st.channel = none →
      ConnectionManager.getChannel st
        = Except.error ConnectionManager.chanUnavailableError) ∧
    (∀ ch, st.channel = some ch →
      ConnectionManager.getChannel st = Except.ok ch) ∧
    (∀ coErr, (ConnectionManager.close st none coErr).1.channel = none ∧
      ConnectionManager.getChannel (ConnectionManager.close st none coErr).1
        = Except.error ConnectionManager.chanUnavailableError) ∧
    (∀ ch e coErr, st.channel = some ch →
      (ConnectionManager.close st (some e) coErr).1.channel = some ch ∧
      ConnectionManager.getChannel (ConnectionManager.close st (some e) coErr).1
        = Except.ok ch) := by
  refine ⟨?_, ?_, ?_, ?_⟩
  · intro h
    unfold ConnectionManager.getChannel
    rw [h]
  · intro ch h
    unfold ConnectionManager.getChannel
    rw [h]
  · intro coErr
    obtain ⟨conn, ch, cs⟩ := st
    cases ch <;> cases conn <;> cases coErr <;> exact ⟨rfl, rfl⟩
  · intro ch e coErr h
    obtain ⟨conn, ch0, cs⟩ := st
    cases ch0 with
    | none => simp at h
    | some c =>
        obtain rfl : c = ch := by simpa using h
        exact ⟨rfl, rfl⟩

/-- Witness for the amended C6: a clean `close()` clears the channel so
`getChannel` fails; a `close()` whose channel-close threw keeps it. -/
theorem getChannel_null_channel_spec_witness :
    ConnectionManager.getChannel (ConnectionManager.close stConnectedEx none none).1
      = Except.error ConnectionManager.chanUnavailableError ∧
    ConnectionManager.getChannel
        (ConnectionManager.close stConnectedEx (some "boom") none).1
      = Except.ok 1 :=
  ⟨((getChannel_null_channel_spec stConnectedEx).2.2.1 none).2,
   ((getChannel_null_channel_spec stConnectedEx).2.2.2 1 "boom" none rfl).2⟩

/-- C7: a close notification triggers reconnection (clearing the
references, setting `disconnected`, invoking `connect()` and emitting
"reconnected" on success or "error" on failure) if and only if the
close was not caused by an explicit `close()` call: after `close()` the
state is `disconnected` and the handler does nothing. -/
theorem close_event_reconnect_iff_unexpected (st : ManagerState) (cfg : ConnCfg)
    (attempts : Nat → ConnAttempt) (chErr coErr : Option String) :
    (ConnectionManager.onConnectionClose (ConnectionManager.close st chErr coErr).1
        = ((ConnectionManager.close st chErr coErr).1, false)) ∧
    (st.currentState = ConnState.connected →
      ConnectionManager.onConnectionClose st =
        ({ connection := none, channel := none,
           currentState := ConnState.disconnected }, true) ∧
      ((ConnectionManager.connect cfg (ConnectionManager.onConnectionClose st).1 attempts).2.2
          = Except.ok () →
        (ConnectionManager.reconnect cfg (ConnectionManager.onConnectionClose st).1 attempts).2.2
          = ConnectionManager.Emitted.reconnected) ∧
      (∀ e, (ConnectionManager.connect cfg (ConnectionManager.onConnectionClose st).1 attempts).2.2
          = Except.error e →
        (ConnectionManager.reconnect cfg (ConnectionManager.onConnectionClose st).1 attempts).2.2
          = ConnectionManager.Emitted.emittedError e)) := by
  constructor
  · have hd := close_state_disconnected st chErr coErr
    unfold ConnectionManager.onConnectionClose
    rw [if_pos hd]
  · intro hcn
    refine ⟨?_, ?_, ?_⟩
    · unfold ConnectionManager.onConnectionClose
      rw [if_neg (by rw [hcn]; exact fun hcontra => ConnState.noConfusion hcontra)]
    · intro h
      simp [ConnectionManager.reconnect, h]
    · intro e h
      simp [ConnectionManager.reconnect, h]

/-- Witness for C7: an explicit close triggers no reconnection; an
unexpected close in the connected state reconnects and emits
"reconnected" when `connect()` succeeds. -/
theorem close_event_reconnect_iff_unexpected_witness :
    ConnectionManager.onConnectionClose (ConnectionManager.close stConnectedEx none none).1
      = ((ConnectionManager.close stConnectedEx none none).1, false) ∧
    (ConnectionManager.reconnect cfgConnEx
        (ConnectionManager.onConnectionClose stConnectedEx).1 attemptsOkEx).2.2
      = ConnectionManager.Emitted.reconnected :=
  ⟨(close_event_reconnect_iff_unexpected stConnectedEx cfgConnEx attemptsOkEx none none).1,
   ((close_event_reconnect_iff_unexpected stConnectedEx cfgConnEx attemptsOkEx none none).2
      rfl).2.1 rfl⟩

/-- C8: when the delegated DLQ-handler call throws — on either the
retryable or the non-retryable path — the consumer loop nacks the
message without requeue (`nack(msg, false, false)`) and does not
propagate the failure; when the DLQ call succeeds no nack is issued. -/
theorem handleError_dlq_failure_nacks_no_requeue (errNonRetryable : Bool)
    (retryResult nonRetryResult : Except String Unit) :
    (∀ e, errNonRetryable = true → nonRetryResult = Except.error e →
      BaseConsumer.handleError errNonRetryable retryResult nonRetryResult
        = [ChannelOp.nack false false]) ∧
    (∀ e, errNonRetryable = false → retryResult = Except.error e →
      BaseConsumer.handleError errNonRetryable retryResult nonRetryResult
        = [ChannelOp.nack false false]) ∧
    ((if errNonRetryable then nonRetryResult else retryResult) = Except.ok () →
      BaseConsumer.handleError errNonRetryable retryResult nonRetryResult = []) := by
  refine ⟨?_, ?_, ?_⟩
  · intro e hb hres
    subst hb
    simp [BaseConsumer.handleError, hres]
  · intro e hb hres
    subst hb
    simp [BaseConsumer.handleError, hres]
  · intro h
    simp [BaseConsumer.handleError, h]

/-- Witness for C8: a failing retryable-path DLQ call yields exactly one
`nack(false, false)`. -/
theorem handleError_dlq_failure_nacks_no_requeue_witness :
    BaseConsumer.handleError false (Except.error "publish failed") (Except.ok ())
      = [ChannelOp.nack false false] :=
  (handleError_dlq_failure_nacks_no_requeue false
    (Except.error "publish failed") (Except.ok ())).2.1 "publish failed" rfl rfl
